import Mathlib

/-!
Verification of the simple-transaction negotiation driver
(`SimpleTransaction` in `simple_transaction.cpp`) and of the key-keeper
sync/async glue (`private_key_keeper.cpp`).

The driver `SimpleTransaction::UpdateImpl`, the helper message emitters
`SendInvitation` / `ConfirmInvitation`, the creation-time parameter check
`Creator::CheckAndCompleteParameters`, and the cancellation-safety predicate
`IsInSafety` are embedded as executable Lean functions below.  Calls into
`BaseTxBuilder`, `BaseTransaction` and the gateway (whose bodies are outside
the embedded sources) are modelled by an explicit environment of observable
results (`Env`), and their state effects by an explicit effect trace.
-/

namespace Atomi

abbrev Height := Nat
abbrev Amount := Nat
abbrev GPoint := Nat

/-- Wallet identifier: a channel plus a public key (`WalletID` with `m_Pk`). -/
structure WalletID where
  channel : Nat
  pk : Nat
deriving DecidableEq, Repr

/-- Address-book entry (`WalletAddress`).  `isOwn` / `isExpired` model the
    corresponding member predicates; `ownID` is `m_OwnID`, `label` is `m_label`. -/
structure WalletAddress where
  walletID : WalletID
  isOwn : Bool
  isExpired : Bool
  label : String
  ownID : Nat
  createTime : Nat
deriving DecidableEq, Repr

/-- `IWalletDB::getAddress`: lookup of a wallet id in the address book. -/
def getAddress (db : List WalletAddress) (wid : WalletID) : Option WalletAddress :=
  db.find? (fun a => decide (a.walletID = wid))

/-- `IWalletDB::saveAddress`: insert or overwrite the entry for the address's id. -/
def saveAddress (db : List WalletAddress) (a : WalletAddress) : List WalletAddress :=
  if (db.find? (fun b => decide (b.walletID = a.walletID))).isSome then
    db.map (fun b => if b.walletID = a.walletID then a else b)
  else
    a :: db

/-- Modelled from the spec: the SBBS signing key obtained by
    `get_SbbsKdf()->DeriveKey(sk, Key::ID(ownID, Key::Type::Bbs))` is kept as a
    free term (kdf identity, own id); the KDF itself is a cryptographic black box. -/
structure SbbsKey where
  kdf : Nat
  ownID : Nat
deriving DecidableEq, Repr

def deriveSbbsKey (kdf ownID : Nat) : SbbsKey := ⟨kdf, ownID⟩

/-- The data a `PaymentConfirmation` signs: kernel id, value, sender public key. -/
structure PaymentConfirmationData where
  kernelID : Nat
  value : Amount
  sender : Nat
deriving DecidableEq, Repr

/-- Modelled from the spec: a Schnorr signature is a black box; `pcSign` keeps the
    signing key and the signed data as a free term, so distinct keys or data give
    distinct signatures and nothing else is assumed. -/
structure Sig where
  key : SbbsKey
  data : PaymentConfirmationData
deriving DecidableEq, Repr

def pcSign (sk : SbbsKey) (pc : PaymentConfirmationData) : Sig := ⟨sk, pc⟩

/-- Negotiation sub-states (`SimpleTransaction::State`), in enum order. -/
inductive TxState
  | Initial
  | Invitation
  | InvitationConfirmation
  | Registration
  | KernelConfirmation
deriving DecidableEq, Repr, BEq

/-- Numeric index of a state, following the C++ enum order. -/
def stateIdx : TxState → Nat
  | .Initial => 0
  | .Invitation => 1
  | .InvitationConfirmation => 2
  | .Registration => 3
  | .KernelConfirmation => 4

/-- User-visible transaction status (`TxStatus`). -/
inductive TxStatus
  | Pending
  | InProgress
  | Canceled
  | Completed
  | Failed
  | Registering
deriving DecidableEq, Repr, BEq

/-- Node registration verdict (`proto::TxStatus`). -/
inductive RegVerdict
  | Ok
  | Unspecified
  | InvalidContext
  | InvalidInput
  | LowFee
  | TooLarge
deriving DecidableEq, Repr, BEq

/-- Failure taxonomy (`TxFailureReason`). -/
inductive FailureReason
  | NoInputs
  | Canceled
  | MaxHeightIsUnacceptable
  | InvalidPeerSignature
  | NoPaymentProof
  | InvalidKernelProof
  | FailedToSendParameters
  | FailedToRegister
  | InvalidTransaction
  | TransactionExpired
  | NotEnoughDataForProof
  | KeyKeeperError
deriving DecidableEq, Repr, BEq

/-- One `(TxParameterID, value)` entry of an outbound peer message. -/
inductive MsgParam
  | amount (v : Amount)
  | fee (v : Amount)
  | minHeight (v : Height)
  | lifetime (v : Height)
  | peerMaxHeight (v : Height)
  | isSender (b : Bool)
  | peerProtoVersion (v : Nat)
  | peerPublicExcess (p : GPoint)
  | peerPublicNonce (p : GPoint)
  | assetID (v : Nat)
  | peerSignature (s : Nat)
  | peerInputs (x : Nat)
  | peerOutputs (x : Nat)
  | peerOffset (x : Nat)
  | paymentConfirmation (s : Sig)
  | transactionRegistered (v : RegVerdict)
deriving DecidableEq, Repr

/-- Observable side effects of one `UpdateImpl` run: messages handed to
    `SendTxParameters`, gateway calls, builder mutations and coin-status writes. -/
inductive Effect
  | sendMsg (ps : List MsgParam)
  | notifyFailure (r : FailureReason)
  | registerTx
  | confirmKernel (kid : Nat)
  | updateOnNextTip
  | completeTx
  | setCoinStatuses (h : Height)
  | selectInputs
  | addChange
  | generateNonce
  | generateCoin (v : Amount) (asset : Bool)
  | createKernel
  | finalizeSignature
deriving DecidableEq, Repr

/-- The per-transaction slice of the parameter store that `UpdateImpl`,
    `ConfirmInvitation` and `IsInSafety` read or write.  A `none` field is an
    absent parameter (`GetParameter` returning `false`). -/
structure TxRecord where
  isSender? : Option Bool := none
  peerID? : Option WalletID := none
  myID? : Option WalletID := none
  amount? : Option Amount := none
  amountList? : Option (List Amount) := none
  fee? : Option Amount := none
  state? : Option TxState := none
  status? : Option TxStatus := none
  failureReason? : Option FailureReason := none
  transactionRegistered? : Option RegVerdict := none
  kernelUnconfirmedHeight? : Option Height := none
  kernelProofHeight? : Option Height := none
  peerProtoVersion? : Option Nat := none
  kernelID? : Option Nat := none
  paymentConfirmation? : Option Sig := none
deriving DecidableEq, Repr

/-- `SimpleTransaction::GetState`: the `State` parameter, defaulting to `Initial`. -/
def getState (rec : TxRecord) : TxState :=
  rec.state?.getD TxState.Initial

/-- `SimpleTransaction::IsInSafety`: the record is beyond the point where
    cancellation is allowed exactly in state `KernelConfirmation`. -/
def IsInSafety (rec : TxRecord) : Bool :=
  decide (getState rec = TxState.KernelConfirmation)

/-- The key-keeper handle the driver holds (`m_KeyKeeper`); only its SBBS KDF
    identity is observable in the embedded code. -/
structure KeyKeeper where
  sbbsKdf : Nat
deriving DecidableEq, Repr

/-- Modelled from the spec: `BaseTxBuilder`, `BaseTransaction::CheckExpired` and
    the transaction validity predicate are not part of the embedded sources;
    each call the driver makes into them is modelled by its observable result,
    collected in this environment.  Boolean fields mirror the return values of
    the corresponding calls; `b`-prefixed fields mirror builder getters. -/
structure Env where
  keyKeeper : Option KeyKeeper := none
  loadKernelOk : Bool := false
  hasKernelID : Bool := false
  getInitialTxParams : Bool := false
  createInputsPending : Bool := false
  createOutputsPending : Bool := false
  hasPeerPublicExcessAndNonce : Bool := false
  updateMaxHeightOk : Bool := true
  hasPeerSignature : Bool := false
  signSenderInitialPending : Bool := false
  signSenderFinalPending : Bool := false
  signReceiverPending : Bool := false
  isInitiator : Bool := true
  isPeerSignatureValid : Bool := true
  checkExpired : Bool := false
  transactionValid : Bool := true
  sendOk : Bool := true
  bAmount : Amount := 0
  bFee : Amount := 0
  bMinHeight : Height := 0
  bLifetime : Height := 0
  bMaxHeight : Height := 0
  bPublicExcess : GPoint := 0
  bPublicNonce : GPoint := 0
  bAssetId : Nat := 0
  bPartialSig : Nat := 0
  bInputs : Nat := 0
  bOutputs : Nat := 0
  bOffset : Nat := 0
  bKernelID : Nat := 0
deriving DecidableEq, Repr

/-- Modelled from the spec: `s_ProtoVersion`, the advertised protocol version
    constant; its numeric value is declared outside the embedded sources and
    nothing here depends on it. -/
def sProtoVersion : Nat := 3

/-- Modelled from the spec: `BaseTransaction::OnFailed` is outside the embedded
    sources; per the error-handling design it records the failure reason, renders
    the record `Failed` (`Canceled` for a user cancel) and, when `notify` is set,
    sends a failure notification to the peer. -/
def onFailed (rec : TxRecord) (r : FailureReason) (notify : Bool) :
    TxRecord × List Effect :=
  ({ rec with
      failureReason? := some r,
      status? := some (if r = FailureReason.Canceled then TxStatus.Canceled
                       else TxStatus.Failed) },
   if notify then [Effect.notifyFailure r] else [])

/-- Modelled from the spec: `BaseTransaction::SendTxParameters` is outside the
    embedded sources; it attempts the transport send, delivers the message on
    success and reports success as a boolean. -/
def sendTxParameters (env : Env) (ps : List MsgParam) : Bool × List Effect :=
  (env.sendOk, if env.sendOk then [Effect.sendMsg ps] else [])

/-- The parameter set of the sender's invitation (`SimpleTransaction::SendInvitation`). -/
def sendInvitationParams (env : Env) (isSender : Bool) : List MsgParam :=
  [ MsgParam.amount env.bAmount,
    MsgParam.fee env.bFee,
    MsgParam.minHeight env.bMinHeight,
    MsgParam.lifetime env.bLifetime,
    MsgParam.peerMaxHeight env.bMaxHeight,
    MsgParam.isSender (!isSender),
    MsgParam.peerProtoVersion sProtoVersion,
    MsgParam.peerPublicExcess env.bPublicExcess,
    MsgParam.peerPublicNonce env.bPublicNonce,
    MsgParam.assetID env.bAssetId ]

/-- `SimpleTransaction::SendInvitation`: send the invitation message and fail the
    record with `FailedToSendParameters` (without peer notification) when the
    transport send fails. -/
def sendInvitation (env : Env) (rec : TxRecord) (isSender : Bool) :
    TxRecord × List Effect :=
  let sent := sendTxParameters env (sendInvitationParams env isSender)
  if sent.1 then (rec, sent.2)
  else
    let failed := onFailed rec FailureReason.FailedToSendParameters false
    (failed.1, sent.2 ++ failed.2)

/-- The fixed part of the receiver's reply (`SimpleTransaction::ConfirmInvitation`). -/
def confirmInvitationBase (env : Env) : List MsgParam :=
  [ MsgParam.peerProtoVersion sProtoVersion,
    MsgParam.peerPublicExcess env.bPublicExcess,
    MsgParam.peerSignature env.bPartialSig,
    MsgParam.peerPublicNonce env.bPublicNonce,
    MsgParam.peerMaxHeight env.bMaxHeight,
    MsgParam.peerInputs env.bInputs,
    MsgParam.peerOutputs env.bOutputs,
    MsgParam.peerOffset env.bOffset ]

/-- The full parameter set of the receiver's reply, including the payment
    confirmation logic of `SimpleTransaction::ConfirmInvitation`: a stored
    `PaymentConfirmation` is re-sent as is; otherwise, when `PeerID`, `MyID`,
    `KernelID` and `Amount` are all present and `MyID` resolves to an owned
    address, a fresh signature over `(kernelID, amount, peer pk)` under the SBBS
    key for that address is attached. -/
def confirmInvitationPayload (env : Env) (db : List WalletAddress) (kk : KeyKeeper)
    (rec : TxRecord) (isSender : Bool) : List MsgParam :=
  let base := confirmInvitationBase env
  if isSender then base
  else
    match rec.paymentConfirmation? with
    | some sig => base ++ [MsgParam.paymentConfirmation sig]
    | none =>
      match rec.peerID?, rec.myID?, rec.kernelID?, rec.amount? with
      | some widPeer, some widMy, some kid, some amt =>
        match getAddress db widMy with
        | some waddr =>
          if waddr.isOwn then
            base ++ [MsgParam.paymentConfirmation
              (pcSign (deriveSbbsKey kk.sbbsKdf waddr.ownID)
                ⟨kid, amt, widPeer.pk⟩)]
          else base
        | none => base
      | _, _, _, _ => base

/-- The reply parameter set as a function of the record; `none` is the
    mandatory-parameter failure on the `IsSender` read. -/
def confirmInvitationParams (env : Env) (db : List WalletAddress) (kk : KeyKeeper)
    (rec : TxRecord) : Option (List MsgParam) :=
  match rec.isSender? with
  | none => none
  | some isSender => some (confirmInvitationPayload env db kk rec isSender)

/-- `SimpleTransaction::ConfirmInvitation`: build the reply parameters and hand
    them to the transport; the transport result is ignored. -/
def confirmInvitation (env : Env) (db : List WalletAddress) (kk : KeyKeeper)
    (rec : TxRecord) : Option (TxRecord × List Effect) :=
  match rec.isSender? with
  | none => none
  | some isSender =>
    some (rec,
      (sendTxParameters env (confirmInvitationPayload env db kk rec isSender)).2)

/-- Outcome of the negotiation section of `UpdateImpl`: either an early `return`
    or a fall-through into the registration section. -/
inductive StepOut
  | exit (rec : TxRecord) (effs : List Effect)
  | next (rec : TxRecord) (effs : List Effect)
deriving DecidableEq, Repr

/-- The guard of `UpdateImpl`'s negotiation section: the signed kernel is not
    yet available (sender: `LoadKernel` fails; receiver: no kernel id or still
    in `Initial`). -/
def kernelMissing (env : Env) (isSender : Bool) (txState : TxState) : Bool :=
  (isSender && !env.loadKernelOk) ||
  (!isSender && (!env.hasKernelID || decide (txState = TxState.Initial)))

/-- The peer-signature validation and signature finalization at the end of the
    negotiation section of `UpdateImpl`. -/
def finalCheck (env : Env) (rec : TxRecord) (effs : List Effect) : StepOut :=
  if env.isInitiator && !env.isPeerSignatureValid then
    let failed := onFailed rec FailureReason.InvalidPeerSignature true
    StepOut.exit failed.1 (effs ++ failed.2)
  else
    StepOut.next rec (effs ++ [Effect.finalizeSignature])

/-- The record change of the `Initial`-state setup block of `UpdateImpl`:
    `UpdateTxDescription(TxStatus::InProgress)` on first entry. -/
def setupRec (env : Env) (rec : TxRecord) (txState : TxState) : TxRecord :=
  if !env.getInitialTxParams && decide (txState = TxState.Initial) then
    { rec with status? := some TxStatus.InProgress }
  else rec

/-- The effects of the `Initial`-state setup block: the sender selects inputs,
    adds change and reserves a nonce slot; a receiver or self-tx side creates a
    coin per listed amount. -/
def setupEffs (env : Env) (isSender isSelfTx : Bool) (txState : TxState)
    (amountList : List Amount) : List Effect :=
  if !env.getInitialTxParams && decide (txState = TxState.Initial) then
    (if isSender then
      [Effect.selectInputs, Effect.addChange, Effect.generateNonce]
     else []) ++
    (if isSelfTx || !isSender then
      amountList.map (fun a => Effect.generateCoin a (decide (env.bAssetId ≠ 0)))
     else [])
  else []

/-- The negotiation section of `SimpleTransaction::UpdateImpl` (the body of the
    big `if` that runs while the signed kernel is not yet available), for a
    present key keeper.  Follows the source's control flow statement by
    statement; every early `return` becomes `StepOut.exit`, reaching
    `FinalizeSignature` becomes `StepOut.next`; the `ConfirmInvitation` call is
    inlined as its payload plus transport hand-off. -/
def negotiate (env : Env) (db : List WalletAddress) (kk : KeyKeeper)
    (rec : TxRecord) (isSender isSelfTx : Bool) (txState : TxState)
    (amountList : List Amount) : Option StepOut :=
  let rec1 := setupRec env rec txState
  let effs1 := setupEffs env isSender isSelfTx txState amountList
  if env.createInputsPending then some (StepOut.exit rec1 effs1)
  else if env.createOutputsPending then some (StepOut.exit rec1 effs1)
  else if !isSelfTx && !env.hasPeerPublicExcessAndNonce then
    if decide (txState = TxState.Initial) then
      if env.signSenderInitialPending then some (StepOut.exit rec1 effs1)
      else
        let sent := sendInvitation env rec1 isSender
        let rec3 := { sent.1 with state? := some TxState.Invitation }
        some (StepOut.exit rec3 (effs1 ++ sent.2 ++ [Effect.updateOnNextTip]))
    else some (StepOut.exit rec1 (effs1 ++ [Effect.updateOnNextTip]))
  else if !env.updateMaxHeightOk then
    let failed := onFailed rec1 FailureReason.MaxHeightIsUnacceptable true
    some (StepOut.exit failed.1 (effs1 ++ failed.2))
  else
    let effs2 := effs1 ++ [Effect.createKernel]
    if !isSelfTx && !env.hasPeerSignature && decide (txState = TxState.Initial) then
      if env.signReceiverPending then some (StepOut.exit rec1 effs2)
      else
        let rec2 := { rec1 with status? := some TxStatus.Registering }
        match rec2.isSender? with
        | none => none
        | some isSnd =>
          let effsCI :=
            (sendTxParameters env
              (confirmInvitationPayload env db kk rec2 isSnd)).2
          if rec2.peerProtoVersion?.isSome then
            some (StepOut.exit
              { rec2 with
                  transactionRegistered? := some RegVerdict.Ok,
                  state? := some TxState.KernelConfirmation }
              (effs2 ++ effsCI ++ [Effect.confirmKernel env.bKernelID]))
          else
            some (StepOut.exit
              { rec2 with state? := some TxState.InvitationConfirmation }
              (effs2 ++ effsCI))
    else if !isSelfTx && !env.hasPeerSignature && env.isInitiator then
      some (StepOut.exit rec1 effs2)
    else if !isSelfTx then
      if env.signSenderFinalPending then some (StepOut.exit rec1 effs2)
      else some (finalCheck env rec1 effs2)
    else
      if env.signReceiverPending then some (StepOut.exit rec1 effs2)
      else some (finalCheck env rec1 effs2)

/-- The kernel-confirmation tail of `UpdateImpl`: once the registration verdict
    allows progress, poll kernel inclusion, or complete when a proof height is
    recorded. -/
def proofPhase (env : Env) (rec : TxRecord) : TxRecord × List Effect :=
  if rec.kernelProofHeight?.getD 0 = 0 then
    ({ rec with state? := some TxState.KernelConfirmation },
      [Effect.confirmKernel env.bKernelID])
  else
    ({ rec with status? := some TxStatus.Completed },
      [Effect.setCoinStatuses (rec.kernelProofHeight?.getD 0), Effect.completeTx])

/-- The registration section of `UpdateImpl`: with no verdict yet, validate and
    submit the transaction (unless expired); with a verdict, fail on a permanent
    rejection and otherwise proceed to kernel confirmation. -/
def registrationPhase (env : Env) (rec : TxRecord) : TxRecord × List Effect :=
  match rec.transactionRegistered? with
  | none =>
    if env.checkExpired then (rec, [])
    else if !env.transactionValid then
      onFailed rec FailureReason.InvalidTransaction true
    else
      ({ rec with state? := some TxState.Registration }, [Effect.registerTx])
  | some v =>
    if v = RegVerdict.InvalidContext then
      if rec.kernelUnconfirmedHeight?.getD 0 > 0 then
        onFailed rec FailureReason.FailedToRegister true
      else proofPhase env rec
    else if v ≠ RegVerdict.Ok then
      onFailed rec FailureReason.FailedToRegister true
    else proofPhase env rec

/-- `SimpleTransaction::IsSelfTx`: the peer id resolves to an owned address. -/
def isSelfTxB (db : List WalletAddress) (pid : WalletID) : Bool :=
  match getAddress db pid with
  | some a => a.isOwn
  | none => false

/-- `SimpleTransaction::UpdateImpl`: one re-entry of the negotiation driver.
    `none` models a mandatory-parameter failure (`GetMandatoryParameter` throw);
    otherwise the updated record and the effect trace of the run are returned. -/
def updateImpl (env : Env) (db : List WalletAddress) (rec : TxRecord) :
    Option (TxRecord × List Effect) :=
  match rec.isSender?, rec.peerID? with
  | some isSender, some pid =>
    match (match rec.amountList? with
           | some l => some l
           | none => rec.amount?.map (fun a => [a])), rec.fee? with
    | some amountList, some _fee =>
      let isSelfTx := isSelfTxB db pid
      let txState := getState rec
      if kernelMissing env isSender txState then
        match env.keyKeeper with
        | none => some (rec, [])
        | some kk =>
          match negotiate env db kk rec isSender isSelfTx txState amountList with
          | none => none
          | some (StepOut.exit r es) => some (r, es)
          | some (StepOut.next r es) =>
            let reg := registrationPhase env r
            some (reg.1, es ++ reg.2)
      else
        some (registrationPhase env rec)
    | _, _ => none
  | _, _ => none

/-- Creation-time parameter errors of `Creator::CheckAndCompleteParameters`. -/
inductive CreateErr
  | invalidParams
  | addressExpired
deriving DecidableEq, Repr

/-- The inputs `Creator::CheckAndCompleteParameters` reads from the transaction
    parameters, plus the `IsSelfTx` parameter it may set. -/
structure CreateParams where
  peerID : Option WalletID := none
  message : Option String := none
  isSelfTx : Option Bool := none
deriving DecidableEq, Repr

/-- The address-book entry created for a previously unknown peer: the wallet id,
    the current timestamp, and the `Message` parameter as label when present. -/
def newPeerAddress (pid : WalletID) (now : Nat) (message : Option String) :
    WalletAddress :=
  { walletID := pid, isOwn := false, isExpired := false,
    label := message.getD "", ownID := 0, createTime := now }

/-- The label refresh for a known receiver address: when a `Message` parameter is
    present and differs from the stored label, the label is updated and the
    address re-saved. -/
def refreshLabel (db : List WalletAddress) (receiverAddr : WalletAddress)
    (message : Option String) : WalletAddress × List WalletAddress :=
  match message with
  | some msg =>
    if msg ≠ receiverAddr.label then
      let addr := { receiverAddr with label := msg }
      (addr, saveAddress db addr)
    else (receiverAddr, db)
  | none => (receiverAddr, db)

/-- `SimpleTransaction::Creator::CheckAndCompleteParameters`: require a peer id;
    refuse an expired owned peer address; refresh the label of a known address
    from the `Message` parameter and record `IsSelfTx`; create an address-book
    entry for an unknown peer.  Returns the completed parameters and the updated
    address book. -/
def checkAndCompleteParameters (db : List WalletAddress) (now : Nat)
    (params : CreateParams) : Except CreateErr (CreateParams × List WalletAddress) :=
  match params.peerID with
  | none => Except.error CreateErr.invalidParams
  | some pid =>
    match getAddress db pid with
    | some receiverAddr =>
      if receiverAddr.isOwn && receiverAddr.isExpired then
        Except.error CreateErr.addressExpired
      else
        Except.ok ({ params with isSelfTx := some receiverAddr.isOwn },
          (refreshLabel db receiverAddr params.message).2)
    | none =>
      Except.ok (params, saveAddress db (newPeerAddress pid now params.message))

/-- Key-keeper operation status (`IPrivateKeyKeeper2::Status`). -/
inductive KKStatus
  | Ok
  | InProgress
  | UserAbort
  | Unspecified
  | DeviceLost
deriving DecidableEq, Repr

/-- The default asynchronous shape (`IPrivateKeyKeeper2::InvokeAsync`): run the
    synchronous shape and invoke the handler once with its status.  The result
    is the final method state paired with the trace of `OnDone` invocations. -/
def invokeAsyncDefault {α : Type} (invokeSync : α → KKStatus × α) (m : α) :
    α × List KKStatus :=
  ((invokeSync m).2, [(invokeSync m).1])

/-- The default synchronous shape (`IPrivateKeyKeeper2::InvokeSyncInternal`) over
    an arbitrary asynchronous implementation, modelled as the final state of the
    method object it was handed plus its `OnDone` trace.  `HandlerSync` starts at
    `InProgress` and keeps the last delivered status; the method object is moved
    back to the caller only when the final status is not `InProgress`. -/
def invokeSyncInternal {α : Type} (invokeAsyncImpl : α → α × List KKStatus)
    (m : α) : KKStatus × α :=
  let run := invokeAsyncImpl m
  let ret := run.2.getLast?.getD KKStatus.InProgress
  (ret, if ret = KKStatus.InProgress then m else run.1)

/-- The messages handed to the transport during a run, in order. -/
def sentMessages (effs : List Effect) : List (List MsgParam) :=
  effs.filterMap (fun e =>
    match e with
    | Effect.sendMsg ps => some ps
    | _ => none)

/-! Concrete fixtures used by the counterexamples and witnesses below. -/

/-- A record in state `Registration` whose status is still live (non-terminal). -/
def recC3reg : TxRecord :=
  { state? := some TxState.Registration, status? := some TxStatus.InProgress }

/-- An environment with no key keeper (`m_KeyKeeper == nullptr`, public wallet). -/
def envC10 : Env := { keyKeeper := none }

/-- A sender record before any kernel exists. -/
def recC10 : TxRecord :=
  { isSender? := some true, peerID? := some ⟨1, 11⟩,
    amount? := some 100, fee? := some 10 }

/-- Creation parameters naming a peer that is absent from the address book. -/
def paramsC8 : CreateParams := { peerID := some ⟨9, 99⟩, message := some "bob" }

/-- C3, counterexample: a record in state `Registration` (at or beyond
    `Registration`, status still live) is NOT reported as cancellation-unsafe:
    `IsInSafety` is false there, refuting the claimed equivalence with
    `state ≥ Registration ∧ not terminal`. -/
theorem c3_unsafe_window_counterexample :
    stateIdx TxState.Registration ≤ stateIdx (getState recC3reg) ∧
    recC3reg.status? = some TxStatus.InProgress ∧
    IsInSafety recC3reg = false := by
  refine ⟨by decide, rfl, by decide⟩

/-- C3, amended: the cancellation-unsafe window reported by `IsInSafety` is
    exactly the records whose state is at or beyond `KernelConfirmation`,
    i.e. precisely the state `KernelConfirmation` itself. -/
theorem c3_unsafe_window_amended (rec : TxRecord) :
    IsInSafety rec = true ↔
      stateIdx TxState.KernelConfirmation ≤ stateIdx (getState rec) := by
  cases h : getState rec <;> simp [IsInSafety, h, stateIdx]

/-- C10: for a record with no signed kernel yet, when the key keeper is absent
    (public wallet), `UpdateImpl` returns with the record unchanged, no
    parameter write, no state transition and no outbound message or gateway
    call. -/
theorem c10_public_wallet_frame (env : Env) (db : List WalletAddress)
    (rec : TxRecord) (isSender : Bool) (pid : WalletID)
    (hs : rec.isSender? = some isSender) (hpid : rec.peerID? = some pid)
    (hamt : rec.amountList?.isSome ∨ rec.amount?.isSome)
    (hfee : rec.fee?.isSome)
    (hkk : env.keyKeeper = none)
    (hmiss : kernelMissing env isSender (getState rec) = true) :
    updateImpl env db rec = some (rec, []) := by
  obtain ⟨f, hf⟩ := Option.isSome_iff_exists.mp hfee
  cases hal : rec.amountList? with
  | some l => simp [updateImpl, hs, hpid, hal, hf, hmiss, hkk]
  | none =>
    have h2 : rec.amount?.isSome := by
      rcases hamt with h | h
      · rw [hal] at h; exact absurd h (by simp)
      · exact h
    obtain ⟨a, ha⟩ := Option.isSome_iff_exists.mp h2
    simp [updateImpl, hs, hpid, hal, ha, hf, hmiss, hkk]

/-- C10, witness: the frame property at a concrete sender record with no kernel
    and no key keeper. -/
theorem c10_public_wallet_frame_witness :
    updateImpl envC10 [] recC10 = some (recC10, []) :=
  c10_public_wallet_frame envC10 [] recC10 true ⟨1, 11⟩ rfl rfl
    (Or.inr (by decide)) (by decide) rfl (by decide)

/-- C8: `Creator::CheckAndCompleteParameters` throws the address-expired error
    exactly when the peer id is present, found in the address book, owned and
    expired; and for a peer id not in the address book it creates and saves a
    fresh entry (labelled from the `Message` parameter) instead of failing. -/
theorem c8_check_and_complete (db : List WalletAddress) (now : Nat)
    (params : CreateParams) :
    (checkAndCompleteParameters db now params =
        Except.error CreateErr.addressExpired ↔
      ∃ pid addr, params.peerID = some pid ∧ getAddress db pid = some addr ∧
        addr.isOwn = true ∧ addr.isExpired = true) ∧
    (∀ pid, params.peerID = some pid → getAddress db pid = none →
      checkAndCompleteParameters db now params =
        Except.ok (params, newPeerAddress pid now params.message :: db)) := by
  constructor
  · constructor
    · intro h
      cases hp : params.peerID with
      | none => simp [checkAndCompleteParameters, hp] at h
      | some pid =>
        cases ha : getAddress db pid with
        | none => simp [checkAndCompleteParameters, hp, ha] at h
        | some addr =>
          by_cases hoe : addr.isOwn && addr.isExpired
          · have hboth : addr.isOwn = true ∧ addr.isExpired = true := by simpa using hoe
            exact ⟨pid, addr, rfl, ha, hboth.1, hboth.2⟩
          · simp [checkAndCompleteParameters, hp, ha, hoe] at h
    · rintro ⟨pid, addr, hp, ha, hown, hexp⟩
      simp [checkAndCompleteParameters, hp, ha, hown, hexp]
  · intro pid hp ha
    have hfind : List.find? (fun a => decide (a.walletID = pid)) db = none := by
      unfold getAddress at ha; exact ha
    simp [checkAndCompleteParameters, hp, ha, saveAddress, newPeerAddress, hfind]

/-- C8, witness: sending to a peer absent from an empty address book succeeds
    and records a new labelled entry for it. -/
theorem c8_check_and_complete_witness :
    checkAndCompleteParameters [] 77 paramsC8 =
      Except.ok (paramsC8, [newPeerAddress ⟨9, 99⟩ 77 (some "bob")]) :=
  (c8_check_and_complete [] 77 paramsC8).2 ⟨9, 99⟩ rfl rfl

/-- C9: the two default key-keeper shapes are mutually derivable: the default
    synchronous shape returns exactly the status a single-fire asynchronous
    implementation delivers to `OnDone` (returning the updated method object
    when that status is not `InProgress`), and the default asynchronous shape
    invokes its handler exactly once with the status of the synchronous shape;
    composing them returns the synchronous status and, outside `InProgress`,
    the synchronous output fields. -/
theorem c9_sync_async_equiv {α : Type} (invokeSync : α → KKStatus × α)
    (invokeAsyncImpl : α → α × List KKStatus) (m m2 : α) (st : KKStatus) :
    (invokeAsyncDefault invokeSync m).2 = [(invokeSync m).1] ∧
    (invokeAsyncImpl m = (m2, [st]) →
      invokeSyncInternal invokeAsyncImpl m =
        (st, if st = KKStatus.InProgress then m else m2)) ∧
    (invokeSyncInternal (invokeAsyncDefault invokeSync) m).1 = (invokeSync m).1 ∧
    ((invokeSync m).1 ≠ KKStatus.InProgress →
      (invokeSyncInternal (invokeAsyncDefault invokeSync) m).2 = (invokeSync m).2) := by
  refine ⟨rfl, ?_, ?_, ?_⟩
  · intro h
    simp [invokeSyncInternal, h]
  · simp [invokeSyncInternal, invokeAsyncDefault]
  · intro h
    simp [invokeSyncInternal, invokeAsyncDefault, h]

/-- C9, witness: the equivalence at a concrete operation on naturals that
    completes with status `Ok`. -/
theorem c9_sync_async_equiv_witness :
    (invokeSyncInternal (fun n : Nat => (n + 5, [KKStatus.Ok])) 0 =
      (KKStatus.Ok, if KKStatus.Ok = KKStatus.InProgress then 0 else 5)) ∧
    (invokeSyncInternal (invokeAsyncDefault (fun n : Nat => (KKStatus.Ok, n + 1))) 0).2
      = ((fun n : Nat => (KKStatus.Ok, n + 1)) 0).2 := by
  constructor
  · exact (c9_sync_async_equiv (fun n : Nat => (KKStatus.Ok, n + 1))
      (fun n : Nat => (n + 5, [KKStatus.Ok])) 0 5 KKStatus.Ok).2.1 rfl
  · exact (c9_sync_async_equiv (fun n : Nat => (KKStatus.Ok, n + 1))
      (fun n : Nat => (n + 5, [KKStatus.Ok])) 0 5 KKStatus.Ok).2.2.2 (by decide)

/-- An environment whose builder already holds a signed kernel. -/
def envC2 : Env := { keyKeeper := some ⟨7⟩, loadKernelOk := true, bKernelID := 42 }

/-- A sender record whose submission was answered `InvalidContext` after the
    kernel had been seen unconfirmed at height 9. -/
def recC2ic : TxRecord :=
  { isSender? := some true, peerID? := some ⟨1, 11⟩, amountList? := some [100],
    fee? := some 10, state? := some TxState.Registration,
    transactionRegistered? := some RegVerdict.InvalidContext,
    kernelUnconfirmedHeight? := some 9 }

/-- C2: once a registration verdict is recorded (and the signed kernel is
    loaded), `UpdateImpl` reacts as follows: `Ok` (no proof yet) sets state
    `KernelConfirmation` and polls kernel inclusion; `InvalidContext` with no
    prior unconfirmed sighting does not fail the record — it also proceeds to
    kernel polling and is retried on a later re-entry; `InvalidContext` after a
    prior unconfirmed sighting fails with `FailedToRegister`; any other non-`Ok`
    verdict fails with `FailedToRegister`. -/
theorem c2_registration_verdicts (env : Env) (db : List WalletAddress)
    (rec : TxRecord) (pid : WalletID) (l : List Amount) (f : Amount)
    (hs : rec.isSender? = some true) (hpid : rec.peerID? = some pid)
    (hal : rec.amountList? = some l) (hfee : rec.fee? = some f)
    (hk : env.loadKernelOk = true) :
    (rec.transactionRegistered? = some RegVerdict.Ok →
      rec.kernelProofHeight?.getD 0 = 0 →
      updateImpl env db rec =
        some ({ rec with state? := some TxState.KernelConfirmation },
          [Effect.confirmKernel env.bKernelID])) ∧
    (rec.transactionRegistered? = some RegVerdict.InvalidContext →
      rec.kernelUnconfirmedHeight?.getD 0 = 0 →
      rec.kernelProofHeight?.getD 0 = 0 →
      updateImpl env db rec =
        some ({ rec with state? := some TxState.KernelConfirmation },
          [Effect.confirmKernel env.bKernelID])) ∧
    (∀ h, rec.transactionRegistered? = some RegVerdict.InvalidContext →
      rec.kernelUnconfirmedHeight? = some h → 0 < h →
      updateImpl env db rec =
        some ({ rec with status? := some TxStatus.Failed,
                         failureReason? := some FailureReason.FailedToRegister },
          [Effect.notifyFailure FailureReason.FailedToRegister])) ∧
    (∀ v, rec.transactionRegistered? = some v →
      v ≠ RegVerdict.Ok → v ≠ RegVerdict.InvalidContext →
      updateImpl env db rec =
        some ({ rec with status? := some TxStatus.Failed,
                         failureReason? := some FailureReason.FailedToRegister },
          [Effect.notifyFailure FailureReason.FailedToRegister])) := by
  have hkm : kernelMissing env true (getState rec) = false := by
    simp [kernelMissing, hk]
  refine ⟨?_, ?_, ?_, ?_⟩
  · intro hreg hproof
    simp [updateImpl, hs, hpid, hal, hfee, hkm, registrationPhase, hreg,
      proofPhase, hproof]
  · intro hreg hunc hproof
    simp [updateImpl, hs, hpid, hal, hfee, hkm, registrationPhase, hreg,
      proofPhase, hproof, hunc]
  · intro h hreg hunc hpos
    simp [updateImpl, hs, hpid, hal, hfee, hkm, registrationPhase, hreg,
      hunc, hpos, onFailed]
  · intro v hreg hok hic
    simp [updateImpl, hs, hpid, hal, hfee, hkm, registrationPhase, hreg,
      hok, hic, onFailed]

/-- C2, witness: `InvalidContext` after an unconfirmed sighting at height 9
    fails the concrete record with `FailedToRegister`. -/
theorem c2_registration_verdicts_witness :
    updateImpl envC2 [] recC2ic =
      some ({ recC2ic with status? := some TxStatus.Failed,
                           failureReason? := some FailureReason.FailedToRegister },
        [Effect.notifyFailure FailureReason.FailedToRegister]) :=
  (c2_registration_verdicts envC2 [] recC2ic ⟨1, 11⟩ [100] 10 rfl rfl rfl rfl
    rfl).2.2.1 9 rfl rfl (by decide)

/-- The address book holding the receiver's own address (own id 5). -/
def dbC5 : List WalletAddress :=
  [{ walletID := ⟨2, 22⟩, isOwn := true, isExpired := false, label := "me",
     ownID := 5, createTime := 0 }]

/-- A receiver record with peer, own id, kernel id and amount recorded. -/
def recC5 : TxRecord :=
  { isSender? := some false, peerID? := some ⟨1, 11⟩, myID? := some ⟨2, 22⟩,
    amount? := some 100, kernelID? := some 42 }

/-- C5: for a receiver-role record whose `MyID` resolves to an owned address,
    the `InvitationConfirmation` parameter set carries a `PaymentConfirmation`
    signature over `(kernelId, amount, sender pk from PeerID)` under the SBBS
    key derived for that address's own id; a stored `PaymentConfirmation` is
    re-sent as is instead of re-signing. -/
theorem c5_payment_confirmation (env : Env) (db : List WalletAddress)
    (kk : KeyKeeper) (rec : TxRecord) (widPeer widMy : WalletID) (kid : Nat)
    (amt : Amount) (waddr : WalletAddress)
    (hs : rec.isSender? = some false)
    (hpeer : rec.peerID? = some widPeer) (hmy : rec.myID? = some widMy)
    (hkid : rec.kernelID? = some kid) (hamt : rec.amount? = some amt)
    (haddr : getAddress db widMy = some waddr) (hown : waddr.isOwn = true) :
    (rec.paymentConfirmation? = none →
      confirmInvitationParams env db kk rec =
        some (confirmInvitationBase env ++
          [MsgParam.paymentConfirmation
            (pcSign (deriveSbbsKey kk.sbbsKdf waddr.ownID)
              ⟨kid, amt, widPeer.pk⟩)])) ∧
    (∀ sig, rec.paymentConfirmation? = some sig →
      confirmInvitationParams env db kk rec =
        some (confirmInvitationBase env ++ [MsgParam.paymentConfirmation sig])) := by
  constructor
  · intro hpc
    simp [confirmInvitationParams, confirmInvitationPayload, hs, hpc, hpeer,
      hmy, hkid, hamt, haddr, hown]
  · intro sig hpc
    simp [confirmInvitationParams, confirmInvitationPayload, hs, hpc]

/-- C5, witness: the fresh payment-proof signature at a concrete receiver
    record, bound to kernel 42, amount 100 and the sender's public key 11,
    under the SBBS key for own id 5. -/
theorem c5_payment_confirmation_witness :
    confirmInvitationParams { bKernelID := 42 } dbC5 ⟨7⟩ recC5 =
      some (confirmInvitationBase { bKernelID := 42 } ++
        [MsgParam.paymentConfirmation
          (pcSign (deriveSbbsKey 7 5) ⟨42, 100, 11⟩)]) :=
  (c5_payment_confirmation { bKernelID := 42 } dbC5 ⟨7⟩ recC5 ⟨1, 11⟩ ⟨2, 22⟩ 42 100
    { walletID := ⟨2, 22⟩, isOwn := true, isExpired := false, label := "me",
      ownID := 5, createTime := 0 }
    rfl rfl rfl rfl rfl (by decide) rfl).1 rfl

/-- C6: on the receiver path from state `Initial`, after emitting the
    `InvitationConfirmation` reply: when the peer advertised a proto version,
    `UpdateImpl` records `TransactionRegistered = Ok`, moves to
    `KernelConfirmation` and requests confirmation of the kernel id; otherwise
    it moves to `InvitationConfirmation` and leaves the registration verdict
    untouched, requesting no kernel confirmation. -/
theorem c6_receiver_proto_switch (env : Env) (db : List WalletAddress)
    (rec : TxRecord) (pid : WalletID) (l : List Amount) (f : Amount)
    (kk : KeyKeeper) (out : TxRecord × List Effect)
    (hs : rec.isSender? = some false) (hpid : rec.peerID? = some pid)
    (hal : rec.amountList? = some l) (hfee : rec.fee? = some f)
    (hkk : env.keyKeeper = some kk)
    (hself : isSelfTxB db pid = false)
    (hstate : getState rec = TxState.Initial)
    (hin : env.createInputsPending = false)
    (hout : env.createOutputsPending = false)
    (hpe : env.hasPeerPublicExcessAndNonce = true)
    (hmax : env.updateMaxHeightOk = true)
    (hps : env.hasPeerSignature = false)
    (hsr : env.signReceiverPending = false)
    (hrun : updateImpl env db rec = some out) :
    (rec.peerProtoVersion?.isSome →
      out.1.transactionRegistered? = some RegVerdict.Ok ∧
      out.1.state? = some TxState.KernelConfirmation ∧
      Effect.confirmKernel env.bKernelID ∈ out.2) ∧
    (rec.peerProtoVersion? = none →
      out.1.state? = some TxState.InvitationConfirmation ∧
      out.1.transactionRegistered? = rec.transactionRegistered? ∧
      ∀ k, Effect.confirmKernel k ∉ out.2) := by
  have hbig : kernelMissing env false TxState.Initial = true := by
    simp [kernelMissing]
  cases hgi : env.getInitialTxParams <;>
    cases hso : env.sendOk <;>
      cases hpv : rec.peerProtoVersion? <;>
        simp [updateImpl, negotiate, setupRec, setupEffs, sendTxParameters,
          hs, hpid, hal, hfee, hstate, hself, hkk, hbig, hgi, hso, hin, hout,
          hpe, hmax, hps, hsr, hpv] at hrun <;>
        subst hrun <;>
        simp [hpv, List.mem_map]

/-- A receiver environment whose peer data has arrived (kernel id 42). -/
def envC6 : Env :=
  { keyKeeper := some ⟨7⟩, hasPeerPublicExcessAndNonce := true, bKernelID := 42 }

/-- A receiver record whose peer advertised proto version 3. -/
def recC6 : TxRecord :=
  { isSender? := some false, peerID? := some ⟨1, 11⟩, amountList? := some [100],
    fee? := some 10, peerProtoVersion? := some 3 }

/-- The record and effects produced by one update of `recC6`. -/
def outC6 : TxRecord × List Effect :=
  ({ recC6 with status? := some TxStatus.Registering,
                transactionRegistered? := some RegVerdict.Ok,
                state? := some TxState.KernelConfirmation },
   [Effect.generateCoin 100 false, Effect.createKernel,
    Effect.sendMsg (confirmInvitationBase envC6), Effect.confirmKernel 42])

/-- C6, witness: the new-proto receiver jumps to `KernelConfirmation` with
    `TransactionRegistered = Ok` and requests kernel confirmation. -/
theorem c6_receiver_proto_switch_witness :
    outC6.1.transactionRegistered? = some RegVerdict.Ok ∧
    outC6.1.state? = some TxState.KernelConfirmation ∧
    Effect.confirmKernel 42 ∈ outC6.2 :=
  (c6_receiver_proto_switch envC6 [] recC6 ⟨1, 11⟩ [100] 10 ⟨7⟩ outC6
    rfl rfl rfl rfl rfl (by decide) rfl rfl rfl rfl rfl rfl rfl
    (by decide)).1 (by decide)

/-- C7: a sender in state `Initial` whose initial signing round has completed
    emits exactly one message — the invitation carrying precisely `Amount`,
    `Fee`, `MinHeight`, `Lifetime`, `PeerMaxHeight`, `IsSender = false`,
    `PeerProtoVersion`, the local public excess, the local public nonce and
    `AssetID` — and moves the record to state `Invitation`. -/
theorem c7_sender_invitation (env : Env) (db : List WalletAddress)
    (rec : TxRecord) (pid : WalletID) (l : List Amount) (f : Amount)
    (kk : KeyKeeper) (out : TxRecord × List Effect)
    (hs : rec.isSender? = some true) (hpid : rec.peerID? = some pid)
    (hal : rec.amountList? = some l) (hfee : rec.fee? = some f)
    (hkk : env.keyKeeper = some kk)
    (hself : isSelfTxB db pid = false)
    (hstate : getState rec = TxState.Initial)
    (hlk : env.loadKernelOk = false)
    (hin : env.createInputsPending = false)
    (hout : env.createOutputsPending = false)
    (hpe : env.hasPeerPublicExcessAndNonce = false)
    (hsi : env.signSenderInitialPending = false)
    (hsend : env.sendOk = true)
    (hrun : updateImpl env db rec = some out) :
    sentMessages out.2 =
      [[ MsgParam.amount env.bAmount, MsgParam.fee env.bFee,
         MsgParam.minHeight env.bMinHeight, MsgParam.lifetime env.bLifetime,
         MsgParam.peerMaxHeight env.bMaxHeight, MsgParam.isSender false,
         MsgParam.peerProtoVersion sProtoVersion,
         MsgParam.peerPublicExcess env.bPublicExcess,
         MsgParam.peerPublicNonce env.bPublicNonce,
         MsgParam.assetID env.bAssetId ]] ∧
    out.1.state? = some TxState.Invitation := by
  have hbig : kernelMissing env true TxState.Initial = true := by
    simp [kernelMissing, hlk]
  cases hgi : env.getInitialTxParams <;>
    simp [updateImpl, negotiate, setupRec, setupEffs, sendInvitation,
      sendTxParameters, sendInvitationParams, hs, hpid, hal, hfee, hstate,
      hself, hkk, hbig, hgi, hin, hout, hpe, hsi, hsend] at hrun <;>
    subst hrun <;>
    simp [sentMessages, sendInvitationParams]

/-- A sender environment ready to send its invitation. -/
def envC7 : Env :=
  { keyKeeper := some ⟨7⟩, bAmount := 100, bFee := 10, bMinHeight := 1,
    bLifetime := 240, bMaxHeight := 300, bPublicExcess := 77, bPublicNonce := 88 }

/-- A fresh sender record. -/
def recC7 : TxRecord :=
  { isSender? := some true, peerID? := some ⟨1, 11⟩, amountList? := some [100],
    fee? := some 10 }

/-- The record and effects produced by one update of `recC7`. -/
def outC7 : TxRecord × List Effect :=
  ({ recC7 with status? := some TxStatus.InProgress,
                state? := some TxState.Invitation },
   [Effect.selectInputs, Effect.addChange, Effect.generateNonce,
    Effect.sendMsg (sendInvitationParams envC7 true), Effect.updateOnNextTip])

/-- C7, witness: the concrete sender emits exactly the ten-parameter invitation
    and lands in state `Invitation`. -/
theorem c7_sender_invitation_witness :
    sentMessages outC7.2 =
      [[ MsgParam.amount 100, MsgParam.fee 10, MsgParam.minHeight 1,
         MsgParam.lifetime 240, MsgParam.peerMaxHeight 300,
         MsgParam.isSender false, MsgParam.peerProtoVersion sProtoVersion,
         MsgParam.peerPublicExcess 77, MsgParam.peerPublicNonce 88,
         MsgParam.assetID 0 ]] ∧
    outC7.1.state? = some TxState.Invitation :=
  c7_sender_invitation envC7 [] recC7 ⟨1, 11⟩ [100] 10 ⟨7⟩ outC7
    rfl rfl rfl rfl rfl (by decide) rfl rfl rfl rfl rfl rfl rfl (by decide)

/-- A receiver environment whose transport send fails. -/
def envC4 : Env :=
  { keyKeeper := some ⟨7⟩, hasPeerPublicExcessAndNonce := true, sendOk := false,
    bKernelID := 42 }

/-- A fresh receiver record about to emit `InvitationConfirmation`. -/
def recC4 : TxRecord :=
  { isSender? := some false, peerID? := some ⟨1, 11⟩, amountList? := some [100],
    fee? := some 10 }

/-- C4, counterexample: on the receiver's `InvitationConfirmation` emission the
    transport failure is ignored — the record proceeds to state
    `InvitationConfirmation` with status `Registering` and no failure reason,
    refuting the claim that a `sendTxParameters` failure is terminal on every
    message-emitting path. -/
theorem c4_transport_failure_counterexample :
    envC4.sendOk = false ∧
    updateImpl envC4 [] recC4 =
      some ({ recC4 with state? := some TxState.InvitationConfirmation,
                         status? := some TxStatus.Registering },
        [Effect.generateCoin 100 false, Effect.createKernel]) ∧
    recC4.failureReason? = none := by
  refine ⟨rfl, by decide, rfl⟩

/-- C4, amended: a transport failure of `SendTxParameters` is terminal only on
    the sender's `Invitation` path, where the record moves to `Failed` with
    reason `FailedToSendParameters` (without peer notification and without any
    coin-status change by the update); the receiver's `ConfirmInvitation`
    ignores the transport result and its record keeps its failure state. -/
theorem c4_transport_failure_amended (env : Env) (db : List WalletAddress)
    (rec : TxRecord) (pid : WalletID) (l : List Amount) (f : Amount)
    (kk : KeyKeeper) (out : TxRecord × List Effect)
    (hpid : rec.peerID? = some pid) (hal : rec.amountList? = some l)
    (hfee : rec.fee? = some f) (hkk : env.keyKeeper = some kk)
    (hself : isSelfTxB db pid = false)
    (hstate : getState rec = TxState.Initial)
    (hin : env.createInputsPending = false)
    (hout : env.createOutputsPending = false)
    (hsend : env.sendOk = false)
    (hrun : updateImpl env db rec = some out) :
    (rec.isSender? = some true → env.loadKernelOk = false →
      env.hasPeerPublicExcessAndNonce = false →
      env.signSenderInitialPending = false →
      out.1.status? = some TxStatus.Failed ∧
      out.1.failureReason? = some FailureReason.FailedToSendParameters ∧
      out.1.state? = some TxState.Invitation ∧
      (∀ h, Effect.setCoinStatuses h ∉ out.2) ∧
      (∀ r, Effect.notifyFailure r ∉ out.2)) ∧
    (rec.isSender? = some false →
      env.hasPeerPublicExcessAndNonce = true →
      env.updateMaxHeightOk = true →
      env.hasPeerSignature = false →
      env.signReceiverPending = false →
      out.1.failureReason? = rec.failureReason? ∧
      out.1.status? = some TxStatus.Registering ∧
      (∀ r, Effect.notifyFailure r ∉ out.2)) := by
  constructor
  · intro hs hlk hpe hsi
    have hbig : kernelMissing env true TxState.Initial = true := by
      simp [kernelMissing, hlk]
    cases hgi : env.getInitialTxParams <;>
      simp [updateImpl, negotiate, setupRec, setupEffs, sendInvitation,
        sendTxParameters, onFailed, hs, hpid, hal, hfee, hstate, hself, hkk,
        hbig, hgi, hin, hout, hpe, hsi, hsend] at hrun <;>
      subst hrun <;>
      simp [List.mem_map]
  · intro hs hpe hmax hps hsr
    have hbig : kernelMissing env false TxState.Initial = true := by
      simp [kernelMissing]
    cases hgi : env.getInitialTxParams <;>
      cases hpv : rec.peerProtoVersion? <;>
        simp [updateImpl, negotiate, setupRec, setupEffs, sendTxParameters,
          hs, hpid, hal, hfee, hstate, hself, hkk, hbig, hgi, hin, hout, hpe,
          hmax, hps, hsr, hsend, hpv] at hrun <;>
        subst hrun <;>
        simp [List.mem_map]

/-- A sender environment whose transport send fails. -/
def envC4s : Env := { keyKeeper := some ⟨7⟩, sendOk := false }

/-- A fresh sender record about to emit its invitation. -/
def recC4s : TxRecord :=
  { isSender? := some true, peerID? := some ⟨1, 11⟩, amountList? := some [100],
    fee? := some 10 }

/-- The record and effects produced by one update of `recC4s`. -/
def outC4s : TxRecord × List Effect :=
  ({ recC4s with status? := some TxStatus.Failed,
                 failureReason? := some FailureReason.FailedToSendParameters,
                 state? := some TxState.Invitation },
   [Effect.selectInputs, Effect.addChange, Effect.generateNonce,
    Effect.updateOnNextTip])

/-- The record and effects produced by one update of `recC4` (receiver side). -/
def outC4r : TxRecord × List Effect :=
  ({ recC4 with status? := some TxStatus.Registering,
                state? := some TxState.InvitationConfirmation },
   [Effect.generateCoin 100 false, Effect.createKernel])

/-- C4, witness: the amended behaviour at concrete records — the sender fails
    with `FailedToSendParameters`, the receiver proceeds unfailed. -/
theorem c4_transport_failure_amended_witness :
    (outC4s.1.status? = some TxStatus.Failed ∧
     outC4s.1.failureReason? = some FailureReason.FailedToSendParameters ∧
     outC4s.1.state? = some TxState.Invitation ∧
     (∀ h, Effect.setCoinStatuses h ∉ outC4s.2) ∧
     (∀ r, Effect.notifyFailure r ∉ outC4s.2)) ∧
    (outC4r.1.failureReason? = recC4.failureReason? ∧
     outC4r.1.status? = some TxStatus.Registering ∧
     (∀ r, Effect.notifyFailure r ∉ outC4r.2)) := by
  constructor
  · exact (c4_transport_failure_amended envC4s [] recC4s ⟨1, 11⟩ [100] 10 ⟨7⟩
      outC4s rfl rfl rfl rfl (by decide) rfl rfl rfl rfl (by decide)).1
      rfl rfl rfl rfl
  · exact (c4_transport_failure_amended envC4 [] recC4 ⟨1, 11⟩ [100] 10 ⟨7⟩
      outC4r rfl rfl rfl rfl (by decide) rfl rfl rfl rfl (by decide)).2
      rfl rfl rfl rfl rfl

/-- The record carried by a negotiation step outcome. -/
def stepRecord : StepOut → TxRecord
  | .exit r _ => r
  | .next r _ => r

/-- The `Initial`-state setup never touches the failure reason. -/
theorem setupRec_failureReason (env : Env) (rec : TxRecord) (t : TxState) :
    (setupRec env rec t).failureReason? = rec.failureReason? := by
  unfold setupRec; split <;> rfl

/-- `SendInvitation` either leaves the failure reason alone or sets
    `FailedToSendParameters`. -/
theorem sendInvitation_failureReason (env : Env) (rec : TxRecord) (b : Bool) :
    (sendInvitation env rec b).1.failureReason? = rec.failureReason? ∨
    (sendInvitation env rec b).1.failureReason? =
      some FailureReason.FailedToSendParameters := by
  by_cases hso : env.sendOk
  · left; simp [sendInvitation, sendTxParameters, hso]
  · right; simp [sendInvitation, sendTxParameters, onFailed, hso]

/-- The record of the final signature check: either the record failed with
    `InvalidPeerSignature` or it is unchanged. -/
theorem stepRecord_finalCheck (env : Env) (rc : TxRecord) (effs : List Effect) :
    stepRecord (finalCheck env rc effs) =
      (if env.isInitiator && !env.isPeerSignatureValid then
        (onFailed rc FailureReason.InvalidPeerSignature true).1
      else rc) := by
  unfold finalCheck
  split <;> simp [stepRecord]

/-- The registration section can only fail with `InvalidTransaction` or
    `FailedToRegister`. -/
theorem registrationPhase_failureReason (env : Env) (rec : TxRecord) :
    (registrationPhase env rec).1.failureReason? = rec.failureReason? ∨
    (registrationPhase env rec).1.failureReason? =
      some FailureReason.InvalidTransaction ∨
    (registrationPhase env rec).1.failureReason? =
      some FailureReason.FailedToRegister := by
  unfold registrationPhase proofPhase onFailed
  repeat' split
  all_goals simp

/-- The negotiation section can only fail with `FailedToSendParameters`,
    `MaxHeightIsUnacceptable` or `InvalidPeerSignature`. -/
theorem negotiate_failureReason (env : Env) (db : List WalletAddress)
    (kk : KeyKeeper) (rec : TxRecord) (isSender isSelfTx : Bool)
    (txState : TxState) (al : List Amount) (out : StepOut)
    (h : negotiate env db kk rec isSender isSelfTx txState al = some out) :
    (stepRecord out).failureReason? = rec.failureReason? ∨
    (stepRecord out).failureReason? = some FailureReason.FailedToSendParameters ∨
    (stepRecord out).failureReason? = some FailureReason.MaxHeightIsUnacceptable ∨
    (stepRecord out).failureReason? = some FailureReason.InvalidPeerSignature := by
  simp only [negotiate] at h
  repeat' split at h
  all_goals first
    | exact Option.noConfusion h
    | (injection h with h; subst h;
       rw [stepRecord_finalCheck];
       split <;> simp [setupRec_failureReason, onFailed] <;> done)
    | (injection h with h; subst h;
       rcases sendInvitation_failureReason env (setupRec env rec txState) isSender
         with hh | hh <;>
       simp [stepRecord, hh, setupRec_failureReason] <;> done)
    | (injection h with h; subst h;
       simp [stepRecord, setupRec_failureReason, onFailed] <;> done)

/-- C1 (amended): the sender path performs no payment-proof verification — after
    the peer-signature check it finalizes the signature and submits directly,
    and no run of `UpdateImpl`, on any path, ever fails a record with
    `NoPaymentProof`. -/
theorem c1_no_payment_proof_failure (env : Env) (db : List WalletAddress)
    (rec : TxRecord) (out : TxRecord × List Effect)
    (hrun : updateImpl env db rec = some out)
    (hpre : rec.failureReason? ≠ some FailureReason.NoPaymentProof) :
    out.1.failureReason? ≠ some FailureReason.NoPaymentProof := by
  simp only [updateImpl] at hrun
  repeat' split at hrun
  all_goals first
    | exact Option.noConfusion hrun
    | (injection hrun with hrun; subst hrun; simpa using hpre)
    | (injection hrun with hrun; subst hrun;
       rcases registrationPhase_failureReason env rec with h2 | h2 | h2 <;>
       simp_all <;> done)
    | (injection hrun with hrun; subst hrun;
       rename_i r es heq;
       rcases negotiate_failureReason _ _ _ _ _ _ _ _ _ heq with hh | hh | hh | hh <;>
       rcases registrationPhase_failureReason env r with h2 | h2 | h2 <;>
       simp_all [stepRecord])

/-- A sender environment holding the peer's reply with a valid partial
    signature. -/
def envC1 : Env :=
  { keyKeeper := some ⟨7⟩, getInitialTxParams := true,
    hasPeerPublicExcessAndNonce := true, hasPeerSignature := true,
    bKernelID := 42 }

/-- A two-party sender record in state `Invitation` with no stored payment
    confirmation. -/
def recC1 : TxRecord :=
  { isSender? := some true, peerID? := some ⟨1, 11⟩, amount? := some 100,
    fee? := some 10, state? := some TxState.Invitation }

/-- The record and effects produced by one update of `recC1`. -/
def outC1 : TxRecord × List Effect :=
  ({ recC1 with state? := some TxState.Registration },
   [Effect.createKernel, Effect.finalizeSignature, Effect.registerTx])

/-- An environment whose builder already loaded the signed kernel. -/
def envC1b : Env := { keyKeeper := some ⟨7⟩, loadKernelOk := true, bKernelID := 42 }

/-- The same sender record after an `Ok` verdict with a kernel proof at
    height 5 — still without any payment confirmation. -/
def recC1b : TxRecord :=
  { recC1 with transactionRegistered? := some RegVerdict.Ok,
               kernelProofHeight? := some 5 }

/-- C1, witness: the no-`NoPaymentProof` property at the concrete sender run
    that finalizes and submits. -/
theorem c1_no_payment_proof_failure_witness :
    outC1.1.failureReason? ≠ some FailureReason.NoPaymentProof :=
  c1_no_payment_proof_failure envC1 [] recC1 outC1 (by decide) (by decide)

/-- C1, counterexample: a non-self sender whose peer signature validates but
    who holds no payment confirmation at all is not failed with
    `NoPaymentProof`: the update finalizes and submits (state `Registration`,
    no failure reason), and with the verdict and kernel proof recorded the
    record completes — a non-self Completed record with no payment proof,
    refuting the claimed verification step. -/
theorem c1_missing_verification_counterexample :
    recC1.paymentConfirmation? = none ∧
    recC1.isSender? = some true ∧
    isSelfTxB [] ⟨1, 11⟩ = false ∧
    envC1.isPeerSignatureValid = true ∧
    (updateImpl envC1 [] recC1).map
        (fun o => (o.1.failureReason?, o.1.state?, o.2)) =
      some (none, some TxState.Registration,
        [Effect.createKernel, Effect.finalizeSignature, Effect.registerTx]) ∧
    recC1b.paymentConfirmation? = none ∧
    (updateImpl envC1b [] recC1b).map
        (fun o => (o.1.status?, o.1.failureReason?)) =
      some (some TxStatus.Completed, none) := by
  refine ⟨rfl, rfl, by decide, rfl, by decide, rfl, by decide⟩
